import Mathlib

/-!
Verification of the ARIES remediation core.

This development gives a shallow embedding, in Lean, of the core components of
the ARIES closed-loop remediation engine and proves the stated properties of
the natural-language specification against it:

* the knowledge graph (`src/backend/core/knowledge/kg.py`): node/edge tables
  with `INSERT OR REPLACE` upserts, bootstrap seeding, and the
  experience-based edge-weight update;
* the vector store (`src/backend/core/knowledge/vectorstore.py`): document
  list plus a flat L2 nearest-neighbor index;
* the RAG plan generator (`src/backend/core/knowledge/rag.py`): the
  response-parsing step of `generate_fix_plan`;
* the connectors (`src/backend/core/connectors/{ssh,telnet,shell,rj45}.py`):
  connection-state guards on `execute`;
* the agent loop (`src/backend/core/agent.py`): `_get_connector` dispatch,
  the per-tick failure-counter/notification logic of `monitor`, and the
  command loop of `_try_fix_server`.

Numeric edge weights are embedded as rationals; external collaborators
(the paramiko channel, the subprocess runner, the JSON decoder, the sentence
embedding model) are parameters of the corresponding functions, so that each
theorem quantifies over every possible behavior of the collaborator.
-/

namespace Aries

/-! ## Keyed tables

The SQLite tables `kg_nodes (id PK, ...)` and `kg_edges (source, target PK, weight)`
are embedded as association lists keyed by the primary key.  `upsertKV` is
`INSERT OR REPLACE` (replace in place when the key exists, append otherwise);
`updateKV` is `UPDATE ... WHERE key = k` (no insert). -/

def lookupKV {K V : Type} [DecidableEq K] : List (K × V) → K → Option V
  | [], _ => none
  | p :: rest, k => if p.1 = k then some p.2 else lookupKV rest k

def containsKey {K V : Type} [DecidableEq K] (l : List (K × V)) (k : K) : Bool :=
  l.any fun p => decide (p.1 = k)

def upsertKV {K V : Type} [DecidableEq K] (l : List (K × V)) (k : K) (v : V) :
    List (K × V) :=
  if containsKey l k then l.map (fun p => if p.1 = k then (k, v) else p)
  else l ++ [(k, v)]

def updateKV {K V : Type} [DecidableEq K] (l : List (K × V)) (k : K) (v : V) :
    List (K × V) :=
  l.map fun p => if p.1 = k then (k, v) else p

/-- Upsert a whole batch of rows, in order (`Database.execute_many`). -/
def upsertManyKV {K V : Type} [DecidableEq K] (l : List (K × V))
    (batch : List (K × V)) : List (K × V) :=
  batch.foldl (fun acc kv => upsertKV acc kv.1 kv.2) l


/-! ## Knowledge graph (`src/backend/core/knowledge/kg.py`)

`KnowledgeGraph` keeps an in-memory `networkx` digraph mirrored in two SQLite
tables; the digraph is always (re)loaded from the tables, so the tables are
the single source of truth here.  A node row carries the columns of
`kg_nodes` (`type`, `category`, `description`, `commands` as a JSON string);
an edge row of `kg_edges` is keyed by `(source, target)` and carries `weight`. -/

structure NodeRow where
  type : String
  category : Option String
  description : Option String
  commands : Option String
  deriving DecidableEq, Repr

structure KGDb where
  nodes : List (String × NodeRow)
  edges : List ((String × String) × ℚ)
  deriving DecidableEq, Repr

/-- Context dict passed to `update_from_experience` (`context.get("category")`,
`context.get("description")`). -/
structure ExperienceContext where
  category : Option String
  description : Option String

namespace KnowledgeGraph

/-- Model of `KnowledgeGraph.add_node`: upsert of the node row
(`INSERT OR REPLACE INTO kg_nodes`), kg.py lines 192-215. -/
def add_node (g : KGDb) (node_id : String) (row : NodeRow) : KGDb :=
  { g with nodes := upsertKV g.nodes node_id row }

/-- Model of `KnowledgeGraph.add_edge`: upsert of the edge row
(`INSERT OR REPLACE INTO kg_edges`), kg.py lines 217-238. -/
def add_edge (g : KGDb) (source target : String) (weight : ℚ) : KGDb :=
  { g with edges := upsertKV g.edges (source, target) weight }

/-- Weight of the edge `source → target`, when present. -/
def edge_weight (g : KGDb) (source target : String) : Option ℚ :=
  lookupKV g.edges (source, target)

/-- Lines 332-334: `if problem not in self.graph.nodes: self.add_node(problem,
type="problem", category=context.get("category", "unknown"))`. -/
def ensure_problem_node (g : KGDb) (problem : String)
    (context : ExperienceContext) : KGDb :=
  if (lookupKV g.nodes problem).isSome then g
  else add_node g problem
    ⟨"problem", some (context.category.getD "unknown"), none, none⟩

/-- Lines 336-337: `if solution not in self.graph.nodes: self.add_node(solution,
type="solution", description=context.get("description", ""))`. -/
def ensure_solution_node (g : KGDb) (solution : String)
    (context : ExperienceContext) : KGDb :=
  if (lookupKV g.nodes solution).isSome then g
  else add_node g solution
    ⟨"solution", none, some (context.description.getD ""), none⟩

/-- Edge phase of `update_from_experience`, kg.py lines 339-364 (`更新或添加边`):
if `self.graph.has_edge(problem, solution)` adjust the weight —
`min(1.0, weight + 0.1)` on success, `max(0.1, weight - 0.1)` on failure —
writing it back with `UPDATE kg_edges`; otherwise `add_edge` with initial
weight 0.6 (success) or 0.3 (failure). -/
def record_edge_outcome (g2 : KGDb) (problem solution : String)
    (success : Bool) : KGDb :=
  match lookupKV g2.edges (problem, solution) with
  | some current_weight =>
      { g2 with
        edges := updateKV g2.edges (problem, solution)
          (if success then min 1 (current_weight + 1/10)
           else max (1/10) (current_weight - 1/10)) }
  | none =>
      add_edge g2 problem solution (if success then 6/10 else 3/10)

/-- Model of `KnowledgeGraph.update_from_experience`, kg.py lines 323-364:
ensure both endpoint nodes exist (auto-create with default attributes),
then record the outcome on the `problem → solution` edge. -/
def update_from_experience (g : KGDb) (problem solution : String)
    (success : Bool) (context : ExperienceContext) : KGDb :=
  record_edge_outcome
    (ensure_solution_node (ensure_problem_node g problem context)
      solution context)
    problem solution success

/-- Iterated update: `n` consecutive `update_from_experience` calls for the same
`(problem, solution)` pair with the same outcome. -/
def iterate_experience (g : KGDb) (problem solution : String) (success : Bool)
    (context : ExperienceContext) : ℕ → KGDb
  | 0 => g
  | n + 1 =>
      update_from_experience
        (iterate_experience g problem solution success context n)
        problem solution success context

end KnowledgeGraph

/-- The node rows seeded by `_create_base_knowledge` (kg.py lines 71-157), in
source order: the `services`, then the `problems`, then the `solutions`
(whose `commands` column is the JSON dump of the command-template list). -/
def seedNodes : List (String × NodeRow) :=
  [ ("nginx", ⟨"service", some "web_server", none, none⟩),
    ("apache", ⟨"service", some "web_server", none, none⟩),
    ("mysql", ⟨"service", some "database", none, none⟩),
    ("postgresql", ⟨"service", some "database", none, none⟩),
    ("redis", ⟨"service", some "cache", none, none⟩),
    ("mongodb", ⟨"service", some "database", none, none⟩),
    ("kubernetes", ⟨"service", some "container_orchestration", none, none⟩),
    ("docker", ⟨"service", some "container", none, none⟩),
    ("high_cpu", ⟨"problem", some "performance", none, none⟩),
    ("high_memory", ⟨"problem", some "performance", none, none⟩),
    ("disk_full", ⟨"problem", some "storage", none, none⟩),
    ("service_down", ⟨"problem", some "availability", none, none⟩),
    ("network_latency", ⟨"problem", some "network", none, none⟩),
    ("connection_refused", ⟨"problem", some "network", none, none⟩),
    ("restart_service",
      ⟨"solution", none, some "重启服务",
        some "[\"systemctl restart \x7bservice\x7d\"]"⟩),
    ("clear_cache",
      ⟨"solution", none, some "清理缓存",
        some "[\"echo 3 > /proc/sys/vm/drop_caches\"]"⟩),
    ("clean_logs",
      ⟨"solution", none, some "清理日志文件",
        some "[\"find /var/log -type f -name \\\"*.log\\\" -exec truncate -s 0 \x7b\x7d \\\\;\"]"⟩),
    ("check_process",
      ⟨"solution", none, some "检查进程状态",
        some "[\"ps aux | grep \x7bservice\x7d\"]"⟩) ]

/-- The edge rows seeded by `_create_base_knowledge` (kg.py lines 159-187):
the service→problem `relations` followed by the `problem_solutions`. -/
def seedEdges : List ((String × String) × ℚ) :=
  [ (("nginx", "high_cpu"), 7/10),
    (("nginx", "service_down"), 9/10),
    (("mysql", "high_memory"), 8/10),
    (("mysql", "disk_full"), 6/10),
    (("redis", "high_memory"), 7/10),
    (("kubernetes", "service_down"), 8/10),
    (("docker", "high_cpu"), 6/10),
    (("high_cpu", "restart_service"), 6/10),
    (("high_cpu", "check_process"), 8/10),
    (("high_memory", "clear_cache"), 9/10),
    (("disk_full", "clean_logs"), 8/10),
    (("service_down", "restart_service"), 9/10),
    (("service_down", "check_process"), 7/10) ]

namespace KnowledgeGraph

/-- Model of `KnowledgeGraph._create_base_knowledge` (kg.py lines 71-190): bulk
`INSERT OR REPLACE` of the fixed seed catalog into both tables (the trailing
`_load_graph()` call only rebuilds the in-memory digraph from the tables and
cannot re-seed, since the tables are non-empty afterwards). -/
def create_base_knowledge (g : KGDb) : KGDb :=
  { nodes := upsertManyKV g.nodes seedNodes,
    edges := upsertManyKV g.edges seedEdges }

/-- The persistent effect of `KnowledgeGraph._load_graph` (kg.py lines 31-69):
loading rebuilds the in-memory digraph from the tables and seeds the base
knowledge only when the node table is empty (`if len(nodes) == 0`). -/
def load_graph (g : KGDb) : KGDb :=
  if g.nodes.length = 0 then create_base_knowledge g else g

end KnowledgeGraph

/-! ## Connectors (`src/backend/core/connectors/`)

Each connector is embedded by its connection state plus its `execute` guard.
The transport channel itself (paramiko client, telnet reader/writer, serial
handle, subprocess runner) is an abstract type / function parameter, so every
theorem quantifies over all channel behaviors; a result that is the same for
every channel function witnesses that no I/O was performed. -/

/-- The `RuntimeError("未连接到...")` raised by `execute` on a non-connected
SSH / telnet / serial connector. -/
inductive ConnectorError where
  | notConnected
  deriving DecidableEq, Repr

/-- Model of `SSHConnector.execute` (ssh.py lines 77-104).  `client` is `None` on a
fresh instance (`__init__` sets `self.client = None`); the guard
`if not self.client: raise RuntimeError(...)` runs before any channel use.
`exec_command` models `client.exec_command` returning `(stdout, stderr)`;
the method returns `output if output else error`. -/
def SSHConnector.execute {C : Type} (client : Option C)
    (exec_command : C → String → String × String) (command : String) :
    Except ConnectorError String :=
  match client with
  | none => .error .notConnected
  | some c =>
      let r := exec_command c command
      .ok (if r.1 ≠ "" then r.1 else r.2)

/-- Output post-processing of `TelnetConnector._execute_async` (telnet.py
lines 130-139): drop the echoed command line and the trailing prompt line
when the output has more than one line. -/
def telnetStripEcho (output : String) : String :=
  let lines := output.splitOn "\n"
  if lines.length > 1 then String.intercalate "\n" (lines.drop 1).dropLast
  else output

/-- Model of `TelnetConnector.execute` (telnet.py lines 93-139).  A fresh instance has
`reader = None` and `writer = None`; the guard is
`if not self.writer or not self.reader: raise RuntimeError(...)`.
`io` models the send-settle-read round trip on the live channel. -/
def TelnetConnector.execute {R W : Type} (reader : Option R) (writer : Option W)
    (io : R → W → String → String) (command : String) :
    Except ConnectorError String :=
  match writer with
  | none => .error .notConnected
  | some w =>
      match reader with
      | none => .error .notConnected
      | some r => .ok (telnetStripEcho (io r w command))

/-- Append a trailing newline unless the command already ends with one
(rj45.py lines 73-74). -/
def ensureTrailingNewline (command : String) : String :=
  if command.data.getLast? = some '\n' then command else command ++ "\n"

/-- Model of `RJ45Connector.execute` (rj45.py lines 54-90).  A fresh instance has
`serial = None`; the guard is
`if not self.serial or not self.serial.is_open: raise RuntimeError(...)`.
The serial handle is modelled as `(port, is_open)`; `io` models the
clear-buffer / write / sleep / drain round trip. -/
def RJ45Connector.execute {P : Type} (serial : Option (P × Bool))
    (io : P → String → String) (command : String) :
    Except ConnectorError String :=
  match serial with
  | none => .error .notConnected
  | some s =>
      if s.2 then .ok (io s.1 (ensureTrailingNewline command))
      else .error .notConnected

/-- Result of `subprocess.Popen(...).communicate()` plus the exit code. -/
structure ProcOutcome where
  exitCode : Int
  stdout : String
  stderr : String

/-- Model of `ShellConnector.execute` (shell.py lines 28-60).  The shell connector has
no connection state (`connect` returns `True` and `disconnect` is `pass`);
`execute` always spawns the subprocess (`run`), and a non-zero exit code
surfaces stderr (or a synthetic message) as the returned text instead of
raising. -/
def ShellConnector.execute (run : String → ProcOutcome) (command : String) :
    String :=
  let r := run command
  if r.exitCode ≠ 0 then
    if r.stderr ≠ "" then r.stderr
    else "命令执行失败，状态码: " ++ toString r.exitCode
  else r.stdout

/-! ## Agent (`src/backend/core/agent.py`) -/

/-- The fields of a server configuration entry read by `_get_connector`.
Keys accessed with `server[...]` (`ip`, `username`) are required and modelled
as plain fields; keys accessed with `server.get(...)` are `Option`s.  `port`
and `password` are read with `.get` on the ssh/telnet paths but with
`server[...]` on the `cisco_serial` path, so they are `Option`s and the cisco
branch fails on `none` (Python's `KeyError`). -/
structure ServerConfig where
  connection_type : Option String
  ip : String
  port : Option Nat
  username : String
  password : Option String
  key_file : Option String
  device_path : Option String
  baud_rate : Option Nat
  device_type : Option String

/-- The connector instance built by `_get_connector`, one variant per
transport, carrying the constructor arguments of the Python class. -/
inductive Connector where
  | ssh (host : String) (port : Nat) (username : String)
      (password key_file : Option String)
  | telnet (host : String) (port : Nat) (username : String)
      (password : Option String)
  | shell
  | rj45 (device_path : Option String) (baud_rate : Nat)
  | cisco (host : String) (port : Nat) (username password : String)
      (device_type : String)
  deriving DecidableEq, Repr

/-- Failure modes of `_get_connector`: the `ValueError("不支持的连接类型: ...")`
for an unknown `connection_type` (carrying the lowercased type string), and a
`KeyError` for a required key that is absent. -/
inductive GetConnectorError where
  | unsupportedType (conn_type : String)
  | missingKey (key : String)
  deriving DecidableEq, Repr

/-- Python's `str.lower()` (ASCII-adequate for the transport names). -/
def strToLower (s : String) : String := ⟨s.data.map Char.toLower⟩

namespace Agent

/-- Model of `Agent._get_connector` (agent.py lines 99-141):
`conn_type = server.get("connection_type", "ssh").lower()`, then an if/elif
chain over the five transport names, raising `ValueError` on anything else. -/
def get_connector (server : ServerConfig) : Except GetConnectorError Connector :=
  let conn_type := strToLower (server.connection_type.getD "ssh")
  if conn_type = "ssh" then
    .ok (.ssh server.ip (server.port.getD 22) server.username
      server.password server.key_file)
  else if conn_type = "telnet" then
    .ok (.telnet server.ip (server.port.getD 23) server.username
      server.password)
  else if conn_type = "shell" then
    .ok .shell
  else if conn_type = "rj45" then
    .ok (.rj45 server.device_path (server.baud_rate.getD 9600))
  else if conn_type = "cisco_serial" then
    match server.port with
    | none => .error (.missingKey "port")
    | some p =>
        match server.password with
        | none => .error (.missingKey "password")
        | some pw =>
            .ok (.cisco server.ip p server.username pw
              (server.device_type.getD "cisco_ios_serial"))
  else
    .error (.unsupportedType conn_type)

/-- One endpoint's failure-counter / notification step of `Agent.monitor`
(agent.py lines 143-174).  `counter` is `failure_counters.get(id, 0)` before
the tick; `healthy` is the probe verdict; `fixed` is the result of
`_try_fix_server`.  Returns the counter after the tick and whether
`_notify_user` was invoked: on an unhealthy probe the counter is incremented
and notification fires iff the fix failed and the incremented counter is ≥ 5;
on a healthy probe the counter is reset to 0. -/
def monitor_tick (counter : ℕ) (healthy fixed : Bool) : ℕ × Bool :=
  if healthy then (0, false)
  else
    let c := counter + 1
    (c, !fixed && decide (5 ≤ c))

/-- Iterate `monitor_tick` over a run of ticks for one endpoint, recording
the counter value and notification verdict after each tick. -/
def monitor_run (counter : ℕ) : List (Bool × Bool) → List (ℕ × Bool)
  | [] => []
  | (healthy, fixed) :: rest =>
      let step := monitor_tick counter healthy fixed
      step :: monitor_run step.1 rest

/-- The command loop of `Agent._try_fix_server` (agent.py lines 300-324):
`for cmd in fix_plan["commands"]: result = connector.execute(cmd)` —
every command is executed and its output logged; the loop body never
branches on the result.  `execute` is the connector's execute method. -/
def try_fix_commands (execute : String → String) (commands : List String) :
    List (String × String) :=
  commands.map fun cmd => (cmd, execute cmd)

end Agent

/-! ## RAG plan generation (`src/backend/core/knowledge/rag.py`) -/

/-- The plan dict produced by `RAG.generate_fix_plan`. -/
structure FixPlan where
  diagnosis : String
  commands : List String
  explanation : String
  deriving DecidableEq, Repr

/-- Python's `c in content` on a string. -/
def strContains (s : String) (c : Char) : Bool :=
  s.data.any fun x => x = c

/-- Index of the first occurrence of `c` (Python `str.find`; only used when
`c` occurs). -/
def firstIdxOf (cs : List Char) (c : Char) : ℕ :=
  match cs with
  | [] => 0
  | x :: rest => if x = c then 0 else firstIdxOf rest c + 1

/-- Brace extraction of rag.py line 149: the substring from the first opening
brace (Python `content.find`) to the last closing brace (`content.rfind`),
inclusive; empty when the first opening brace comes after the last closing
brace. -/
def extract_json_substring (content : String) : String :=
  let cs := content.data
  let i := firstIdxOf cs '\x7b'
  let j := cs.length - 1 - firstIdxOf cs.reverse '\x7d'
  ⟨(cs.drop i).take (j + 1 - i)⟩

/-- The degraded default plan returned by `generate_fix_plan` when parsing
the completion response fails (rag.py lines 159-163). -/
def default_fix_plan : FixPlan :=
  ⟨"无法解析LLM响应", ["echo \x27无法生成修复命令\x27"], "生成修复计划时出错"⟩

namespace RAG

/-- The response-parsing step of `RAG.generate_fix_plan` (rag.py lines
144-163).  `json_loads` models `json.loads` specialized to the plan payload,
with `none` for any raised exception.  When the content has both braces the
brace-delimited substring is parsed, otherwise the entire content; any parse
failure yields `default_fix_plan` instead of propagating the exception. -/
def parse_fix_plan_response (json_loads : String → Option FixPlan)
    (content : String) : FixPlan :=
  let parsed :=
    if strContains content '\x7b' && strContains content '\x7d' then
      json_loads (extract_json_substring content)
    else json_loads content
  match parsed with
  | some plan => plan
  | none => default_fix_plan

end RAG

/-! ## Vector store (`src/backend/core/knowledge/vectorstore.py`) -/

/-- A stored document (`id`, `content`, optional `type` / `category`). -/
structure Document where
  id : String
  content : String
  type : Option String
  category : Option String
  deriving DecidableEq, Repr

/-- Squared L2 distance between two embedding vectors, as computed by the
`faiss.IndexFlatL2` collaborator. -/
def l2sq (u v : List ℚ) : ℚ :=
  (List.zipWith (fun a b => (a - b) ^ 2) u v).sum

/-- Insert `(index, distance)` into a distance-ascending list. -/
def insertByDist (p : ℕ × ℚ) : List (ℕ × ℚ) → List (ℕ × ℚ)
  | [] => [p]
  | q :: rest => if p.2 ≤ q.2 then p :: q :: rest else q :: insertByDist p rest

/-- Sort `(index, distance)` pairs by ascending distance (the ranking
performed by `faiss.IndexFlatL2.search`). -/
def sortByDist : List (ℕ × ℚ) → List (ℕ × ℚ)
  | [] => []
  | p :: rest => insertByDist p (sortByDist rest)

/-- The vector store state: the document list and the per-document embedding
vectors held by the flat index, in insertion order. -/
structure VectorStore where
  documents : List Document
  embeddings : List (List ℚ)

namespace VectorStore

/-- Model of `VectorStore.search` (vectorstore.py lines 194-227).  `encode` models the
sentence-embedding collaborator (`self.model.encode`).  An empty document
list returns `[]` immediately; otherwise `limit` is clamped to the document
count, the flat index returns the `limit` nearest stored vectors by squared
L2 distance, indices out of range are dropped (`if idx < len(documents)`),
and each hit is returned with score `1.0 - distance / 100.0`. -/
def search (encode : String → List ℚ) (vs : VectorStore) (query : String)
    (limit : ℕ) : List (Document × ℚ) :=
  if vs.documents.isEmpty then []
  else
    let query_embedding := encode query
    let k := min limit vs.documents.length
    let ranked := sortByDist ((List.range vs.embeddings.length).map
      fun i => (i, l2sq ((vs.embeddings.get? i).getD []) query_embedding))
    let top := ranked.take k
    (top.filter fun p => p.1 < vs.documents.length).filterMap
      fun p => (vs.documents.get? p.1).map fun doc => (doc, 1 - p.2 / 100)

end VectorStore

section KVLemmas

variable {K V : Type} [DecidableEq K]

theorem containsKey_eq_isSome_lookupKV (l : List (K × V)) (k : K) :
    containsKey l k = (lookupKV l k).isSome := by
  induction l with
  | nil => simp [containsKey, lookupKV]
  | cons p rest ih =>
      by_cases h : p.1 = k <;> simp [containsKey, lookupKV, h] at ih ⊢
      exact ih

theorem lookupKV_updateKV_self (l : List (K × V)) (k : K) (v : V)
    (h : (lookupKV l k).isSome) : lookupKV (updateKV l k v) k = some v := by
  induction l with
  | nil => simp [lookupKV] at h
  | cons p rest ih =>
      by_cases hp : p.1 = k
      · simp [updateKV, lookupKV, hp]
      · simp [updateKV, lookupKV, hp] at h ⊢
        exact ih h

theorem lookupKV_updateKV_ne (l : List (K × V)) (k k' : K) (v : V)
    (h : k' ≠ k) : lookupKV (updateKV l k v) k' = lookupKV l k' := by
  induction l with
  | nil => simp [updateKV, lookupKV]
  | cons p rest ih =>
      simp only [updateKV, List.map_cons] at ih ⊢
      by_cases hp : p.1 = k
      · simp [lookupKV, if_pos hp, if_neg (Ne.symm h), hp ▸ Ne.symm h, ih]
      · by_cases hp' : p.1 = k' <;> simp [lookupKV, hp, hp', h, ih]

theorem lookupKV_upsertKV_self (l : List (K × V)) (k : K) (v : V) :
    lookupKV (upsertKV l k v) k = some v := by
  unfold upsertKV
  by_cases h : containsKey l k = true
  · rw [if_pos h]
    refine lookupKV_updateKV_self l k v ?_
    rw [containsKey_eq_isSome_lookupKV] at h
    exact h
  · rw [if_neg h]
    rw [containsKey_eq_isSome_lookupKV] at h
    have hnone : lookupKV l k = none := by
      cases hl : lookupKV l k with
      | none => rfl
      | some w => rw [hl] at h; simp at h
    clear h
    induction l with
    | nil => simp [lookupKV]
    | cons p rest ih =>
        by_cases hp : p.1 = k
        · simp [lookupKV, hp] at hnone
        · simp [lookupKV, hp] at hnone ⊢
          exact ih hnone

theorem lookupKV_append_single_ne (l : List (K × V)) (k k' : K) (v : V)
    (h : k' ≠ k) : lookupKV (l ++ [(k, v)]) k' = lookupKV l k' := by
  induction l with
  | nil => simp [lookupKV, Ne.symm h]
  | cons p rest ih =>
      by_cases hp : p.1 = k' <;> simp [lookupKV, hp, ih]

theorem lookupKV_upsertKV_ne (l : List (K × V)) (k k' : K) (v : V)
    (h : k' ≠ k) : lookupKV (upsertKV l k v) k' = lookupKV l k' := by
  unfold upsertKV
  by_cases hc : containsKey l k = true
  · rw [if_pos hc]; exact lookupKV_updateKV_ne l k k' v h
  · rw [if_neg hc]; exact lookupKV_append_single_ne l k k' v h

theorem length_upsertKV_of_contains (l : List (K × V)) (k : K) (v : V)
    (h : containsKey l k = true) : (upsertKV l k v).length = l.length := by
  simp [upsertKV, h]

theorem containsKey_upsertKV (l : List (K × V)) (k k' : K) (v : V) :
    containsKey (upsertKV l k v) k' = (containsKey l k' || decide (k' = k)) := by
  rw [containsKey_eq_isSome_lookupKV, containsKey_eq_isSome_lookupKV]
  by_cases h : k' = k
  · rw [h, lookupKV_upsertKV_self]
    simp
  · rw [lookupKV_upsertKV_ne l k k' v h]
    simp [h]

theorem length_upsertManyKV (l : List (K × V)) (batch : List (K × V))
    (h : ∀ kv ∈ batch, containsKey l kv.1 = true) :
    (upsertManyKV l batch).length = l.length ∧
      ∀ k, containsKey (upsertManyKV l batch) k = containsKey l k := by
  induction batch generalizing l with
  | nil => exact ⟨rfl, fun _ => rfl⟩
  | cons kv rest ih =>
      have hkv : containsKey l kv.1 = true := h kv (List.mem_cons_self _ _)
      have hstep : ∀ k, containsKey (upsertKV l kv.1 kv.2) k = containsKey l k := by
        intro k
        rw [containsKey_upsertKV]
        by_cases hk : k = kv.1
        · subst hk; simp [hkv]
        · simp [hk]
      have hrest : ∀ p ∈ rest, containsKey (upsertKV l kv.1 kv.2) p.1 = true := by
        intro p hp
        rw [hstep]
        exact h p (List.mem_cons_of_mem _ hp)
      obtain ⟨hlen, hkeys⟩ := ih (upsertKV l kv.1 kv.2) hrest
      refine ⟨?_, fun k => (hkeys k).trans (hstep k)⟩
      rw [upsertManyKV] at hlen ⊢
      simp only [List.foldl_cons] at hlen ⊢
      rw [hlen, length_upsertKV_of_contains l kv.1 kv.2 hkv]

end KVLemmas

/-! ## Knowledge-graph lemmas -/

namespace KnowledgeGraph

theorem ensure_problem_node_edges (g : KGDb) (p : String)
    (ctx : ExperienceContext) : (ensure_problem_node g p ctx).edges = g.edges := by
  unfold ensure_problem_node
  split <;> rfl

theorem ensure_solution_node_edges (g : KGDb) (s : String)
    (ctx : ExperienceContext) : (ensure_solution_node g s ctx).edges = g.edges := by
  unfold ensure_solution_node
  split <;> rfl

theorem ensure_problem_node_isSome (g : KGDb) (p : String)
    (ctx : ExperienceContext) :
    (lookupKV (ensure_problem_node g p ctx).nodes p).isSome := by
  unfold ensure_problem_node
  split
  · assumption
  · simp [add_node, lookupKV_upsertKV_self]

theorem ensure_solution_node_isSome (g : KGDb) (s : String)
    (ctx : ExperienceContext) :
    (lookupKV (ensure_solution_node g s ctx).nodes s).isSome := by
  unfold ensure_solution_node
  split
  · assumption
  · simp [add_node, lookupKV_upsertKV_self]

theorem ensure_solution_node_preserves_isSome (g : KGDb) (p s : String)
    (ctx : ExperienceContext) (h : (lookupKV g.nodes p).isSome) :
    (lookupKV (ensure_solution_node g s ctx).nodes p).isSome := by
  unfold ensure_solution_node
  split
  · exact h
  · by_cases hps : p = s
    · subst hps
      simp [add_node, lookupKV_upsertKV_self]
    · simpa [add_node, lookupKV_upsertKV_ne g.nodes s p _ hps] using h

theorem ensure_problem_node_creates (g : KGDb) (p : String)
    (ctx : ExperienceContext) (h : lookupKV g.nodes p = none) :
    lookupKV (ensure_problem_node g p ctx).nodes p =
      some ⟨"problem", some (ctx.category.getD "unknown"), none, none⟩ := by
  unfold ensure_problem_node
  rw [h]
  simp [add_node, lookupKV_upsertKV_self]

theorem ensure_solution_node_creates (g : KGDb) (s : String)
    (ctx : ExperienceContext) (h : lookupKV g.nodes s = none) :
    lookupKV (ensure_solution_node g s ctx).nodes s =
      some ⟨"solution", none, some (ctx.description.getD ""), none⟩ := by
  unfold ensure_solution_node
  rw [h]
  simp [add_node, lookupKV_upsertKV_self]

theorem ensure_problem_node_preserves_ne (g : KGDb) (p s : String)
    (ctx : ExperienceContext) (h : s ≠ p) :
    lookupKV (ensure_problem_node g p ctx).nodes s = lookupKV g.nodes s := by
  unfold ensure_problem_node
  split
  · rfl
  · simp [add_node, lookupKV_upsertKV_ne g.nodes p s _ h]

theorem ensure_solution_node_preserves_value (g : KGDb) (p s : String)
    (ctx : ExperienceContext) (r : NodeRow) (h : lookupKV g.nodes p = some r) :
    lookupKV (ensure_solution_node g s ctx).nodes p = some r := by
  unfold ensure_solution_node
  split
  · exact h
  · next hs =>
      by_cases hps : p = s
      · rw [hps] at h
        rw [h] at hs
        simp at hs
      · rw [add_node, lookupKV_upsertKV_ne g.nodes s p _ hps]
        exact h

/-- The edge table seen by the edge phase of `update_from_experience` is the
input edge table: the node-ensuring phase only touches `kg_nodes`. -/
theorem update_pre_edges (g : KGDb) (p s : String) (ctx : ExperienceContext) :
    (ensure_solution_node (ensure_problem_node g p ctx) s ctx).edges =
      g.edges := by
  rw [ensure_solution_node_edges, ensure_problem_node_edges]

/-- The edge phase leaves the node table unchanged. -/
theorem record_edge_outcome_nodes (g2 : KGDb) (p s : String) (success : Bool) :
    (record_edge_outcome g2 p s success).nodes = g2.nodes := by
  unfold record_edge_outcome
  cases lookupKV g2.edges (p, s) <;> rfl

/-- The node table after `update_from_experience` is the node table after the
two node-ensuring steps. -/
theorem update_from_experience_nodes (g : KGDb) (p s : String)
    (success : Bool) (ctx : ExperienceContext) :
    (update_from_experience g p s success ctx).nodes =
      (ensure_solution_node (ensure_problem_node g p ctx) s ctx).nodes :=
  record_edge_outcome_nodes _ p s success

/-- Weight written by the edge phase when the edge already exists. -/
theorem record_edge_outcome_existing (g2 : KGDb) (p s : String)
    (success : Bool) (w : ℚ) (h : lookupKV g2.edges (p, s) = some w) :
    lookupKV (record_edge_outcome g2 p s success).edges (p, s) =
      some (if success then min 1 (w + 1/10) else max (1/10) (w - 1/10)) := by
  unfold record_edge_outcome
  rw [h]
  exact lookupKV_updateKV_self g2.edges (p, s) _ (by rw [h]; rfl)

/-- Weight written by the edge phase when the edge is absent. -/
theorem record_edge_outcome_absent (g2 : KGDb) (p s : String)
    (success : Bool) (h : lookupKV g2.edges (p, s) = none) :
    lookupKV (record_edge_outcome g2 p s success).edges (p, s) =
      some (if success then 6/10 else 3/10) := by
  unfold record_edge_outcome
  rw [h]
  exact lookupKV_upsertKV_self g2.edges (p, s) _

/-- Weight update of `update_from_experience` on an existing edge. -/
theorem update_weight_existing (g : KGDb) (p s : String) (success : Bool)
    (ctx : ExperienceContext) (w : ℚ) (h : edge_weight g p s = some w) :
    edge_weight (update_from_experience g p s success ctx) p s =
      some (if success then min 1 (w + 1/10) else max (1/10) (w - 1/10)) := by
  unfold update_from_experience
  exact record_edge_outcome_existing _ p s success w
    (by rw [update_pre_edges]; exact h)

theorem min_one_collapse (x c : ℚ) (hc : 0 ≤ c) :
    min 1 (min 1 x + c) = min 1 (x + c) := by
  rcases le_total x 1 with h | h
  · rw [min_eq_right h]
  · rw [min_eq_left h, min_eq_left (by linarith), min_eq_left (by linarith)]

theorem max_tenth_collapse (x c : ℚ) (hc : 0 ≤ c) :
    max (1/10) (max (1/10) x - c) = max (1/10) (x - c) := by
  rcases le_total x (1/10) with h | h
  · rw [max_eq_left h, max_eq_left (by linarith), max_eq_left (by linarith)]
  · rw [max_eq_right h]

/-- After `n` consecutive successful outcomes, an edge that started at weight
`w ≤ 1` has weight `min 1 (w + n / 10)`. -/
theorem weight_after_successes (g : KGDb) (p s : String)
    (ctx : ExperienceContext) (w : ℚ) (hw : w ≤ 1)
    (h : edge_weight g p s = some w) (n : ℕ) :
    edge_weight (iterate_experience g p s true ctx n) p s =
      some (min 1 (w + n / 10)) := by
  induction n with
  | zero =>
      rw [iterate_experience, h]
      norm_num [min_eq_right hw]
  | succ n ih =>
      rw [iterate_experience,
        update_weight_existing _ p s true ctx _ ih]
      simp only [if_pos]
      rw [min_one_collapse _ _ (by norm_num)]
      congr 1
      push_cast
      ring_nf

/-- After `n` consecutive failed outcomes, an edge that started at weight
`w ≥ 0.1` has weight `max 0.1 (w - n / 10)`. -/
theorem weight_after_failures (g : KGDb) (p s : String)
    (ctx : ExperienceContext) (w : ℚ) (hw : 1/10 ≤ w)
    (h : edge_weight g p s = some w) (n : ℕ) :
    edge_weight (iterate_experience g p s false ctx n) p s =
      some (max (1/10) (w - n / 10)) := by
  induction n with
  | zero =>
      rw [iterate_experience, h]
      norm_num [max_eq_right hw]
  | succ n ih =>
      rw [iterate_experience,
        update_weight_existing _ p s false ctx _ ih]
      simp only [if_neg (by simp : ¬(false = true))]
      rw [max_tenth_collapse _ _ (by norm_num)]
      congr 1
      push_cast
      ring_nf

end KnowledgeGraph

/-! ## Claim theorems -/

open KnowledgeGraph in
/-- C1: for an existing problem→solution edge of weight `w`,
`update_from_experience` sets the weight to `min(1.0, w + 0.1)` on success
and to `max(0.1, w - 0.1)` on failure; a missing edge is created with weight
0.6 on success and 0.3 on failure; and both endpoint nodes are present
afterwards, auto-created with the default attributes
(`type="problem"`/`type="solution"` plus the context defaults) when absent. -/
theorem claim_C1 (g : KGDb) (p s : String) (success : Bool)
    (ctx : ExperienceContext) :
    (∀ w, edge_weight g p s = some w →
      edge_weight (update_from_experience g p s success ctx) p s =
        some (if success then min 1 (w + 1/10) else max (1/10) (w - 1/10))) ∧
    (edge_weight g p s = none →
      edge_weight (update_from_experience g p s success ctx) p s =
        some (if success then 6/10 else 3/10)) ∧
    (lookupKV (update_from_experience g p s success ctx).nodes p).isSome ∧
    (lookupKV (update_from_experience g p s success ctx).nodes s).isSome ∧
    (lookupKV g.nodes p = none →
      lookupKV (update_from_experience g p s success ctx).nodes p =
        some ⟨"problem", some (ctx.category.getD "unknown"), none, none⟩) ∧
    (p ≠ s → lookupKV g.nodes s = none →
      lookupKV (update_from_experience g p s success ctx).nodes s =
        some ⟨"solution", none, some (ctx.description.getD ""), none⟩) := by
  have hpre : (ensure_solution_node (ensure_problem_node g p ctx) s ctx).edges
      = g.edges := update_pre_edges g p s ctx
  have hnodes := update_from_experience_nodes g p s success ctx
  refine ⟨?_, ?_, ?_, ?_, ?_, ?_⟩
  · intro w hw
    unfold update_from_experience
    exact record_edge_outcome_existing _ p s success w (by rw [hpre]; exact hw)
  · intro hw
    unfold update_from_experience
    exact record_edge_outcome_absent _ p s success (by rw [hpre]; exact hw)
  · rw [hnodes]
    exact ensure_solution_node_preserves_isSome _ p s ctx
      (ensure_problem_node_isSome g p ctx)
  · rw [hnodes]
    exact ensure_solution_node_isSome _ s ctx
  · intro hp
    rw [hnodes]
    exact ensure_solution_node_preserves_value _ p s ctx _
      (ensure_problem_node_creates g p ctx hp)
  · intro hps hs
    rw [hnodes]
    refine ensure_solution_node_creates _ s ctx ?_
    rw [ensure_problem_node_preserves_ne g p s ctx (Ne.symm hps)]
    exact hs

open KnowledgeGraph in
/-- Witness for C1: on an empty store, recording a success for
`service_down → restart_service` creates the edge with weight 0.6 and
auto-creates the solution node with its default attributes. -/
theorem claim_C1_witness :
    edge_weight
        (update_from_experience ⟨[], []⟩ "service_down" "restart_service"
          true ⟨none, none⟩)
        "service_down" "restart_service" = some (6/10) ∧
    lookupKV
        (update_from_experience ⟨[], []⟩ "service_down" "restart_service"
          true ⟨none, none⟩).nodes
        "restart_service" = some ⟨"solution", none, some "", none⟩ :=
  ⟨((claim_C1 ⟨[], []⟩ "service_down" "restart_service" true
      ⟨none, none⟩).2.1 rfl).trans (by norm_num),
    (claim_C1 ⟨[], []⟩ "service_down" "restart_service" true
      ⟨none, none⟩).2.2.2.2.2 (by decide) rfl⟩

open KnowledgeGraph in
/-- C7: for any starting edge weight `w ∈ [0.1, 1.0]`, ten consecutive
successful experience updates drive the weight to exactly 1.0 (never more),
and ten consecutive failed updates drive it to exactly 0.1 (never less). -/
theorem claim_C7 (g : KGDb) (p s : String) (ctx : ExperienceContext) (w : ℚ)
    (h : edge_weight g p s = some w) (h1 : 1/10 ≤ w) (h2 : w ≤ 1) :
    edge_weight (iterate_experience g p s true ctx 10) p s = some 1 ∧
    edge_weight (iterate_experience g p s false ctx 10) p s = some (1/10) := by
  constructor
  · rw [weight_after_successes g p s ctx w h2 h 10]
    congr 1
    rw [min_eq_left (by push_cast; linarith)]
  · rw [weight_after_failures g p s ctx w h1 h 10]
    congr 1
    rw [max_eq_left (by push_cast; linarith)]

open KnowledgeGraph in
/-- Witness for C7: a store whose `service_down → restart_service` edge has
weight 0.9 (the seeded value) converges to 1.0 after ten successes and to
0.1 after ten failures. -/
theorem claim_C7_witness :
    edge_weight (⟨[], [(("service_down", "restart_service"), 9/10)]⟩ : KGDb)
        "service_down" "restart_service" = some (9/10) ∧
    (1 : ℚ)/10 ≤ 9/10 ∧ (9 : ℚ)/10 ≤ 1 ∧
    edge_weight
        (iterate_experience ⟨[], [(("service_down", "restart_service"), 9/10)]⟩
          "service_down" "restart_service" true ⟨none, none⟩ 10)
        "service_down" "restart_service" = some 1 ∧
    edge_weight
        (iterate_experience ⟨[], [(("service_down", "restart_service"), 9/10)]⟩
          "service_down" "restart_service" false ⟨none, none⟩ 10)
        "service_down" "restart_service" = some (1/10) := by
  have h : edge_weight
      (⟨[], [(("service_down", "restart_service"), 9/10)]⟩ : KGDb)
      "service_down" "restart_service" = some (9/10) := by
    simp [edge_weight, lookupKV]
  refine ⟨h, by norm_num, by norm_num, ?_, ?_⟩
  · exact (claim_C7 _ "service_down" "restart_service" ⟨none, none⟩ (9/10) h
      (by norm_num) (by norm_num)).1
  · exact (claim_C7 _ "service_down" "restart_service" ⟨none, none⟩ (9/10) h
      (by norm_num) (by norm_num)).2

open KnowledgeGraph in
/-- C8: running the bootstrap seeding against a store that already contains
every seeded node and edge key leaves the node count and edge count
unchanged (each seed row is an `INSERT OR REPLACE` hitting an existing key),
and `_load_graph` does not seed when any nodes exist. -/
theorem claim_C8 (g : KGDb)
    (hn : ∀ kv ∈ seedNodes, containsKey g.nodes kv.1 = true)
    (he : ∀ kv ∈ seedEdges, containsKey g.edges kv.1 = true)
    (hne : g.nodes ≠ []) :
    (create_base_knowledge g).nodes.length = g.nodes.length ∧
    (create_base_knowledge g).edges.length = g.edges.length ∧
    load_graph g = g := by
  refine ⟨?_, ?_, ?_⟩
  · simp only [create_base_knowledge]
    exact (length_upsertManyKV g.nodes seedNodes hn).1
  · simp only [create_base_knowledge]
    exact (length_upsertManyKV g.edges seedEdges he).1
  · unfold load_graph
    rw [if_neg]
    rw [ne_eq, ← List.length_eq_zero] at hne
    exact hne

open KnowledgeGraph in
set_option maxHeartbeats 3200000 in
/-- Witness for C8: seeding a freshly seeded store a second time changes
neither count, and loading it does not re-seed. -/
theorem claim_C8_witness :
    (create_base_knowledge (create_base_knowledge ⟨[], []⟩)).nodes.length =
      (create_base_knowledge ⟨[], []⟩).nodes.length ∧
    (create_base_knowledge (create_base_knowledge ⟨[], []⟩)).edges.length =
      (create_base_knowledge ⟨[], []⟩).edges.length ∧
    load_graph (create_base_knowledge ⟨[], []⟩) =
      create_base_knowledge ⟨[], []⟩ :=
  claim_C8 (create_base_knowledge ⟨[], []⟩) (by decide) (by decide) (by decide)

/-- Closed form of a run of all-unhealthy, all-fix-failed ticks: after the
`i`-th tick (0-based) the counter is `c + i + 1` and the notification fires
iff that counter is ≥ 5. -/
theorem monitor_run_unhealthy (c n : ℕ) :
    Agent.monitor_run c (List.replicate n (false, false)) =
      (List.range n).map (fun i => (c + i + 1, decide (5 ≤ c + i + 1))) := by
  induction n generalizing c with
  | zero => rfl
  | succ n ih =>
      rw [List.replicate_succ, Agent.monitor_run]
      have htick : Agent.monitor_tick c false false =
          (c + 1, decide (5 ≤ c + 1)) := by
        simp [Agent.monitor_tick]
      rw [htick]
      rw [List.range_succ_eq_map, List.map_cons, List.map_map]
      congr 1
      rw [ih (c + 1)]
      refine List.map_congr_left ?_
      intro i _
      simp only [Function.comp_apply]
      have harith : c + 1 + i + 1 = c + (i + 1) + 1 := by omega
      rw [harith]

/-- C2: over a run of `n` consecutive ticks in which every probe is
unhealthy and every remediation fails, starting from failure counter 0, the
counter after the `t`-th tick equals `t` (it is never reset to 0), and
`_notify_user` is invoked at tick `t` exactly when `t ≥ 5` — i.e., exactly
once per tick from the 5th unhealthy tick onward. -/
theorem claim_C2 (n t : ℕ) (h1 : 1 ≤ t) (h2 : t ≤ n) :
    (Agent.monitor_run 0 (List.replicate n (false, false))).get? (t - 1) =
      some (t, decide (5 ≤ t)) := by
  rw [monitor_run_unhealthy]
  rw [List.get?_map, List.get?_range (by omega : t - 1 < n)]
  have ht : 0 + (t - 1) + 1 = t := by omega
  simp only [Option.map_some']
  rw [ht]

/-- Witness for C2: in a 6-tick unhealthy run, tick 4 (counter 4) does not
notify, tick 5 (counter 5) notifies, and tick 6 (counter 6) notifies again. -/
theorem claim_C2_witness :
    (Agent.monitor_run 0 (List.replicate 6 (false, false))).get? 3 =
      some (4, false) ∧
    (Agent.monitor_run 0 (List.replicate 6 (false, false))).get? 4 =
      some (5, true) ∧
    (Agent.monitor_run 0 (List.replicate 6 (false, false))).get? 5 =
      some (6, true) :=
  ⟨(claim_C2 6 4 (by decide) (by decide)).trans (by decide),
    (claim_C2 6 5 (by decide) (by decide)).trans (by decide),
    (claim_C2 6 6 (by decide) (by decide)).trans (by decide)⟩

/-- C3 counterexample: within a single tick whose probe is unhealthy
(counter 0 before the tick) and whose auto-fix succeeds, the failure counter
is 1 afterwards — it is not reset to 0 in that same tick (`Agent.monitor`
resets the counter only in the healthy-probe branch of a later tick). -/
theorem claim_C3_counterexample :
    (Agent.monitor_tick 0 false true).1 = 1 ∧
    ¬(Agent.monitor_tick 0 false true).1 = 0 := by
  constructor <;> decide

/-- C3 (amended): in a tick with an unhealthy probe and a successful fix the
counter keeps its incremented value `c + 1` and no notification is sent; the
counter is reset to 0 only by a tick whose probe reports healthy. -/
theorem claim_C3_amended (c c2 : ℕ) (f : Bool) :
    Agent.monitor_tick c false true = (c + 1, false) ∧
    Agent.monitor_tick c2 true f = (0, false) := by
  constructor <;> simp [Agent.monitor_tick]

/-- C4: on a completion response containing no opening and no closing brace
that the JSON decoder rejects, `generate_fix_plan` returns (rather than
raises) the degraded default plan, whose commands list is non-empty and whose
diagnosis says the response could not be parsed. -/
theorem claim_C4 (json_loads : String → Option FixPlan) (content : String)
    (h1 : strContains content '\x7b' = false)
    (h2 : strContains content '\x7d' = false)
    (h3 : json_loads content = none) :
    RAG.parse_fix_plan_response json_loads content = default_fix_plan ∧
    (RAG.parse_fix_plan_response json_loads content).commands ≠ [] ∧
    (RAG.parse_fix_plan_response json_loads content).diagnosis =
      "无法解析LLM响应" := by
  have hmain : RAG.parse_fix_plan_response json_loads content =
      default_fix_plan := by
    unfold RAG.parse_fix_plan_response
    rw [h1]
    simp [h3]
  refine ⟨hmain, ?_, ?_⟩ <;> rw [hmain] <;> simp [default_fix_plan]

/-- Witness for C4: a brace-free completion response that the decoder
rejects yields the default plan. -/
theorem claim_C4_witness :
    RAG.parse_fix_plan_response (fun _ => none) "I cannot help with that" =
      default_fix_plan ∧
    (RAG.parse_fix_plan_response (fun _ => none)
      "I cannot help with that").commands ≠ [] :=
  ⟨(claim_C4 (fun _ => none) "I cannot help with that" (by decide) (by decide)
      rfl).1,
    (claim_C4 (fun _ => none) "I cannot help with that" (by decide) (by decide)
      rfl).2.1⟩

/-- C5: the remediation loop of `_try_fix_server` executes every command of
the plan, in order: the record at position `i` is exactly the `i`-th command
paired with its own execution result, for every behavior of the subprocess
runner — in particular a command failing with a non-zero exit code (whose
stderr is returned as text by `ShellConnector.execute` instead of an
exception) never prevents the execution of the commands after it. -/
theorem claim_C5 (run : String → ProcOutcome) (cmds : List String) (i : ℕ)
    (h : i < cmds.length) :
    (Agent.try_fix_commands (ShellConnector.execute run) cmds).length =
      cmds.length ∧
    (Agent.try_fix_commands (ShellConnector.execute run) cmds).get? i =
      some (cmds.get ⟨i, h⟩, ShellConnector.execute run (cmds.get ⟨i, h⟩)) := by
  constructor
  · simp [Agent.try_fix_commands]
  · rw [Agent.try_fix_commands, List.get?_map, List.get?_eq_get h]
    rfl

/-- Witness for C5: with a runner under which the first command exits 1, the
second command is still executed and its output recorded. -/
theorem claim_C5_witness :
    (Agent.try_fix_commands
        (ShellConnector.execute fun c =>
          if c = "systemctl restart nginx" then ⟨1, "", "boom"⟩
          else ⟨0, "ok", ""⟩)
        ["systemctl restart nginx", "systemctl restart mysql"]).length = 2 ∧
    (Agent.try_fix_commands
        (ShellConnector.execute fun c =>
          if c = "systemctl restart nginx" then ⟨1, "", "boom"⟩
          else ⟨0, "ok", ""⟩)
        ["systemctl restart nginx", "systemctl restart mysql"]).get? 1 =
      some ("systemctl restart mysql", "ok") := by
  have h := claim_C5
    (fun c => if c = "systemctl restart nginx" then ⟨1, "", "boom"⟩
      else ⟨0, "ok", ""⟩)
    ["systemctl restart nginx", "systemctl restart mysql"] 1 (by decide)
  exact ⟨h.1, h.2.trans (by decide)⟩

/-- C6 counterexample: the local-process (shell) connector violates the
claim — `execute` on a fresh, never-connected instance does not fail with
NotConnected: it spawns the subprocess (the result depends on the subprocess
behavior, so I/O is performed) and returns its output. -/
theorem claim_C6_counterexample :
    ShellConnector.execute (fun _ => ⟨0, "total 0", ""⟩) "ls" = "total 0" ∧
    ShellConnector.execute (fun _ => ⟨0, "other-output", ""⟩) "ls" =
      "other-output" := by
  constructor <;> rfl

/-- C6 (amended): for the SSH (interactive-session), telnet (line-mode) and
RJ45 (serial) transports, `execute` on a non-connected instance fails with
NotConnected and performs no I/O (the result does not depend on the channel
functions); the local-process shell variant has no connection state —
`connect` is a no-op and `execute` always runs the subprocess, returning its
stdout when it exits 0. -/
theorem claim_C6_amended {C R W P : Type}
    (exec1 exec2 : C → String → String × String)
    (io1 io2 : R → W → String → String) (sio1 sio2 : P → String → String)
    (run : String → ProcOutcome) (cmd : String) :
    (SSHConnector.execute (none : Option C) exec1 cmd =
        .error .notConnected ∧
      SSHConnector.execute (none : Option C) exec1 cmd =
        SSHConnector.execute none exec2 cmd) ∧
    (TelnetConnector.execute (none : Option R) (none : Option W) io1 cmd =
        .error .notConnected ∧
      TelnetConnector.execute (none : Option R) (none : Option W) io1 cmd =
        TelnetConnector.execute none none io2 cmd) ∧
    (RJ45Connector.execute (none : Option (P × Bool)) sio1 cmd =
        .error .notConnected ∧
      RJ45Connector.execute (none : Option (P × Bool)) sio1 cmd =
        RJ45Connector.execute none sio2 cmd) ∧
    ((run cmd).exitCode = 0 →
      ShellConnector.execute run cmd = (run cmd).stdout) := by
  refine ⟨⟨rfl, rfl⟩, ⟨rfl, rfl⟩, ⟨rfl, rfl⟩, fun hz => ?_⟩
  simp [ShellConnector.execute, hz]

/-- Witness for C6 (amended): concrete channels and a zero-exit subprocess. -/
theorem claim_C6_amended_witness :
    (SSHConnector.execute (none : Option Unit)
        (fun _ c => (c, "")) "uptime" = .error .notConnected) ∧
    ((fun (_ : String) => (⟨0, "up 3 days", ""⟩ : ProcOutcome))
        "uptime").exitCode = 0 ∧
    ShellConnector.execute (fun _ => ⟨0, "up 3 days", ""⟩) "uptime" =
      "up 3 days" :=
  ⟨(claim_C6_amended (fun _ c => (c, "")) (fun _ c => (c, c))
      (fun (_ : Unit) (_ : Unit) c => c) (fun _ _ c => c)
      (fun (_ : Unit) c => c) (fun _ c => c)
      (fun _ => ⟨0, "up 3 days", ""⟩) "uptime").1.1,
    rfl,
    (claim_C6_amended (fun (_ : Unit) (c : String) => (c, ""))
      (fun _ c => (c, c))
      (fun (_ : Unit) (_ : Unit) c => c) (fun _ _ c => c)
      (fun (_ : Unit) c => c) (fun _ c => c)
      (fun _ => ⟨0, "up 3 days", ""⟩) "uptime").2.2.2 rfl⟩

/-- C9: `search` on a store with zero documents returns the empty list for
every query without failing, and on any store the number of results is at
most `min(limit, document count)` — the requested limit is clamped to the
current document count. -/
theorem claim_C9 (encode : String → List ℚ) (vs : VectorStore) (q : String)
    (lim : ℕ) :
    (vs.documents = [] → VectorStore.search encode vs q lim = []) ∧
    (VectorStore.search encode vs q lim).length ≤
      min lim vs.documents.length := by
  constructor
  · intro h
    simp [VectorStore.search, h]
  · by_cases h : vs.documents.isEmpty
    · simp [VectorStore.search, h]
    · simp only [VectorStore.search, h, Bool.false_eq_true, if_false]
      refine le_trans (List.length_filterMap_le _ _) ?_
      refine le_trans (List.length_filter_le _ _) ?_
      exact List.length_take_le _ _

/-- Witness for C9: searching an empty store returns no results, and the
bound holds there. -/
theorem claim_C9_witness :
    VectorStore.search (fun _ => []) ⟨[], []⟩ "database performance" 5 = [] ∧
    (VectorStore.search (fun _ => []) ⟨[], []⟩
        "database performance" 5).length ≤ min 5 0 :=
  ⟨(claim_C9 (fun _ => []) ⟨[], []⟩ "database performance" 5).1 rfl,
    (claim_C9 (fun _ => []) ⟨[], []⟩ "database performance" 5).2⟩

/-- C10: when the `connection_type` field is omitted, connector selection
defaults to the interactive-session (ssh) transport and succeeds; the value
is lowercased before matching (two values with the same lowercase form select
the same connector); and the unsupported-transport error occurs exactly for a
present `connection_type` whose lowercase form matches none of the five
transports. -/
theorem claim_C10 (s : ServerConfig) :
    (s.connection_type = none →
      Agent.get_connector s =
        .ok (.ssh s.ip (s.port.getD 22) s.username s.password s.key_file)) ∧
    (∀ ct ct', s.connection_type = some ct →
      strToLower ct = strToLower ct' →
      Agent.get_connector s =
        Agent.get_connector { s with connection_type := some ct' }) ∧
    (∀ t, Agent.get_connector s = .error (.unsupportedType t) ↔
      ∃ ct, s.connection_type = some ct ∧
        strToLower ct ∉
          (["ssh", "telnet", "shell", "rj45", "cisco_serial"] : List String) ∧
        t = strToLower ct) := by
  have hssh : strToLower "ssh" = "ssh" := by decide
  refine ⟨?_, ?_, ?_⟩
  · intro h
    simp only [Agent.get_connector, h, Option.getD_none]
    rw [if_pos hssh]
  · intro ct ct' h hl
    simp only [Agent.get_connector, h, Option.getD_some, hl]
  · intro t
    cases hct : s.connection_type with
    | none =>
        simp only [Agent.get_connector, hct, Option.getD_none]
        rw [if_pos hssh]
        constructor
        · intro h
          cases h
        · rintro ⟨ct0, hsome, -, -⟩
          cases hsome
    | some ct =>
        simp only [Agent.get_connector, hct, Option.getD_some]
        by_cases h1 : strToLower ct = "ssh"
        · rw [if_pos h1]
          constructor
          · intro h
            cases h
          · rintro ⟨ct0, hsome, hnotin, -⟩
            cases hsome
            exact absurd (by rw [h1]; decide) hnotin
        · rw [if_neg h1]
          by_cases h2 : strToLower ct = "telnet"
          · rw [if_pos h2]
            constructor
            · intro h
              cases h
            · rintro ⟨ct0, hsome, hnotin, -⟩
              cases hsome
              exact absurd (by rw [h2]; decide) hnotin
          · rw [if_neg h2]
            by_cases h3 : strToLower ct = "shell"
            · rw [if_pos h3]
              constructor
              · intro h
                cases h
              · rintro ⟨ct0, hsome, hnotin, -⟩
                cases hsome
                exact absurd (by rw [h3]; decide) hnotin
            · rw [if_neg h3]
              by_cases h4 : strToLower ct = "rj45"
              · rw [if_pos h4]
                constructor
                · intro h
                  cases h
                · rintro ⟨ct0, hsome, hnotin, -⟩
                  cases hsome
                  exact absurd (by rw [h4]; decide) hnotin
              · rw [if_neg h4]
                by_cases h5 : strToLower ct = "cisco_serial"
                · rw [if_pos h5]
                  constructor
                  · intro h
                    cases hp : s.port with
                    | none => rw [hp] at h; cases h
                    | some p =>
                        rw [hp] at h
                        cases hpw : s.password with
                        | none => rw [hpw] at h; cases h
                        | some pw => rw [hpw] at h; cases h
                  · rintro ⟨ct0, hsome, hnotin, -⟩
                    cases hsome
                    exact absurd (by rw [h5]; decide) hnotin
                · rw [if_neg h5]
                  constructor
                  · intro h
                    refine ⟨ct, rfl, ?_, ?_⟩
                    · intro hmem
                      simp only [List.mem_cons, List.mem_singleton,
                        List.not_mem_nil] at hmem
                      rcases hmem with h | h | h | h | h | h
                      · exact h1 h
                      · exact h2 h
                      · exact h3 h
                      · exact h4 h
                      · exact h5 h
                      · exact h
                    · cases h
                      rfl
                  · rintro ⟨ct0, hsome, -, ht⟩
                    cases hsome
                    rw [ht]

/-- Witness for C10: a record with no `connection_type` selects the ssh
connector; `"SSH"` and `"ssh"` select the same connector; and
`"carrier_pigeon"` is rejected with the unsupported-transport error. -/
theorem claim_C10_witness :
    Agent.get_connector
        ⟨none, "10.0.0.1", none, "root", some "pw", none, none, none, none⟩ =
      .ok (.ssh "10.0.0.1" 22 "root" (some "pw") none) ∧
    Agent.get_connector
        ⟨some "SSH", "10.0.0.1", none, "root", some "pw", none, none, none,
          none⟩ =
      Agent.get_connector
        ⟨some "ssh", "10.0.0.1", none, "root", some "pw", none, none, none,
          none⟩ ∧
    (Agent.get_connector
        ⟨some "carrier_pigeon", "10.0.0.1", none, "root", some "pw", none,
          none, none, none⟩ =
        .error (.unsupportedType "carrier_pigeon") ↔
      ∃ ct, (some "carrier_pigeon" : Option String) = some ct ∧
        strToLower ct ∉
          (["ssh", "telnet", "shell", "rj45", "cisco_serial"] : List String) ∧
        "carrier_pigeon" = strToLower ct) :=
  ⟨(claim_C10
      ⟨none, "10.0.0.1", none, "root", some "pw", none, none, none, none⟩).1
      rfl,
    (claim_C10
      ⟨some "SSH", "10.0.0.1", none, "root", some "pw", none, none, none,
        none⟩).2.1 "SSH" "ssh" rfl (by decide),
    (claim_C10
      ⟨some "carrier_pigeon", "10.0.0.1", none, "root", some "pw", none,
        none, none, none⟩).2.2 "carrier_pigeon"⟩

end Aries
